import Mathlib

set_option maxRecDepth 4000

/-!
Shallow embedding of the refresh-rate / idle state machine of the
GrapheneOS comet panel drivers (panel-gs-ct3a.c, panel-gs-ct3d.c),
with theorems checking the natural-language specification's claims.

The kernel framework helpers that live outside this repository
(drm_mode_vrefresh, gs_drm_mode_te_freq, gs_is_vrr_mode, ...) are modelled
as attributes carried by the mode structure; everything else is translated
from the driver source.  DSI bus traffic is modelled as an event trace:
every GS_DCS_BUF_ADD_* macro appends an emit event, every *_AND_FLUSH
appends the emit followed by a flush event, and assignments to the
software-desired / hardware-confirmed state are recorded as events too, so
ordering claims (commands flushed before hardware state is confirmed) are
visible in the trace.
-/

namespace Comet

/-- the panel feature bitmap (DECLARE_BITMAP(feat, FEAT_MAX)); the ct3a
driver reads and writes FEAT_OP_NS, FEAT_EARLY_EXIT, FEAT_FRAME_AUTO and
FEAT_ZA, so the bitmap is modelled as those four booleans. -/
structure FeatSet where
  op_ns : Bool
  early_exit : Bool
  frame_auto : Bool
  za : Bool
deriving DecidableEq

/-- TE option (TEX_OPT_FIXED / TEX_OPT_CHANGEABLE). -/
inductive TexOpt where
  | fixed
  | changeable
deriving DecidableEq

/-- te sub-state of gs_panel_status (rate_hz and option). -/
structure TeState where
  rate_hz : Nat
  opt : TexOpt
deriving DecidableEq

/-- one copy of the feature/rate state (gs_panel_status): the driver keeps
a software-desired copy (sw_status) and a hardware-confirmed copy
(hw_status). -/
structure StatusState where
  feat : FeatSet
  vrefresh : Nat
  idle_vrefresh : Nat
  te : TeState
deriving DecidableEq

/-- idle mode of a panel mode (enum gs_panel_idle_mode). -/
inductive GIdleMode where
  | unsupported
  | on_inactivity
  | on_self_refresh
deriving DecidableEq

/-- a panel mode together with the attributes the external DRM helpers
derive from it: drm_mode_vrefresh, gs_drm_mode_te_freq (TE_FREQ_X1/X2/X4
flags), gs_is_vrr_mode (DRM_MODE_TYPE_VRR), the DRM_MODE_FLAG_NS flag and
gs_mode.is_lp_mode. -/
structure GsPanelMode where
  vrefresh : Nat
  te_freq : Nat
  is_vrr : Bool
  flag_ns : Bool
  is_lp_mode : Bool
  idle_mode : GIdleMode
deriving DecidableEq

/-- panel hardware revision (enum values PANEL_REV_* of the gs_panel
framework header; the driver only compares them by their order). -/
inductive PanelRev where
  | PROTO1
  | PROTO1_1
  | PROTO1_2
  | EVT1
  | EVT1_1
  | EVT1_2
  | DVT1
  | DVT1_1
  | PVT
  | LATEST
deriving DecidableEq

/-- position of a revision in the PANEL_REV_* ordering, used for the
PANEL_REV_GE / PANEL_REV_LT comparisons of the source. -/
def PanelRev.idx : PanelRev → Nat
  | .PROTO1 => 0
  | .PROTO1_1 => 1
  | .PROTO1_2 => 2
  | .EVT1 => 3
  | .EVT1_1 => 4
  | .EVT1_2 => 5
  | .DVT1 => 6
  | .DVT1_1 => 7
  | .PVT => 8
  | .LATEST => 9

/-- runtime state of one probed ct3a panel: the gs_panel base state plus
the ct3a_panel fields the modelled operations touch.  The idle time delta
(gs_panel_get_idle_time_delta, a clock read) is passed to the operations
that need it as an explicit argument. -/
structure Ct3aState where
  sw : StatusState
  hw : StatusState
  panel_rev : PanelRev
  auto_mode_vrefresh : Nat
  force_changeable_te : Bool
  is_pixel_off : Bool
  op_hz : Nat
  dimming_on : Bool
  min_vrefresh : Int
  idle_delay_ms : Nat
  panel_idle_enabled : Bool
  panel_active : Bool
  current_mode : GsPanelMode
deriving DecidableEq

/-- one step of observable behaviour: a command appended to the DSI
command buffer, a flush of that buffer to the bus, a warning printed by
dev_warn (tagged by site: 0 = auto NS idle freq, 1 = auto HS idle freq,
2 = manual NS freq, 3 = manual HS freq), a delegation to the binned-LP
brightness helper, a DCS brightness write, or an assignment to one of the
tracked state fields. -/
inductive PanelEvent where
  | emit (bytes : List Nat)
  | flush
  | warn (site : Nat)
  | binnedLp (br : Nat)
  | dcsSetBrightness (v : Nat)
  | setSwTeRate (r : Nat)
  | setHwTeOption (o : TexOpt)
  | setHwVrefresh (v : Nat)
  | setHwIdleVrefresh (v : Nat)
  | setHwTeRate (r : Nat)
  | setHwFeat (f : FeatSet)
deriving DecidableEq

/-- the commands carried by a trace, in order (what actually reaches the
DSI command buffer). -/
def panelEmits (tr : List PanelEvent) : List (List Nat) :=
  tr.filterMap fun e =>
    match e with
    | .emit b => some b
    | _ => none

/-- vendor test-key unlock bytes (static const u8 unlock_cmd_f0[]). -/
def unlock_cmd_f0 : List Nat := [0xF0, 0x5A, 0x5A]

/-- vendor test-key lock bytes (static const u8 lock_cmd_f0[]). -/
def lock_cmd_f0 : List Nat := [0xF0, 0xA5, 0xA5]

/-- LTPS update write (static const u8 ltps_update[]). -/
def ltps_update : List Nat := [0xF7, 0x0F]

/-- pixel-off command (static const u8 pixel_off[]). -/
def pixel_off : List Nat := [0x22]

/-- MIPI_DCS_ENTER_NORMAL_MODE opcode. -/
def MIPI_DCS_ENTER_NORMAL_MODE : Nat := 0x13

/-- the EINVAL errno value. -/
def EINVAL : Int := 22

/-- the EIO errno value. -/
def EIO_errno : Int := 5

/-- EAGAIN errno value. -/
def EAGAIN : Int := 11

/-- byte swap of a 16-bit brightness value (swab16). -/
def swab16 (x : Nat) : Nat := (x % 256) * 256 + (x / 256) % 256

/-- the feature bitmap ct3a_set_panel_feat works on after its build-time
override block: on PANEL_FACTORY_BUILD it is sw_status.feat unchanged;
otherwise the function first sets FEAT_EARLY_EXIT, clears FEAT_FRAME_AUTO
and, for a VRR mode, copies DRM_MODE_FLAG_NS into FEAT_OP_NS (the writes
go through the feat pointer, i.e. into sw_status.feat). -/
def ct3a_eff_feat (factory : Bool) (s : Ct3aState) (pmode : GsPanelMode) : FeatSet :=
  if factory = true then s.sw.feat
  else
    let f : FeatSet := { s.sw.feat with early_exit := true, frame_auto := false }
    if pmode.is_vrr = true then { f with op_ns := pmode.flag_ns } else f

/-- the local vrefresh variable of ct3a_set_panel_feat after the
build-time override (forced to 1 outside PANEL_FACTORY_BUILD). -/
def ct3a_eff_vrefresh (factory : Bool) (pmode : GsPanelMode) : Nat :=
  if factory = true then pmode.vrefresh else 1

/-- the idle_vrefresh argument of ct3a_set_panel_feat after the
build-time override (forced to 0 outside PANEL_FACTORY_BUILD). -/
def ct3a_eff_idle_vrefresh (factory : Bool) (idle_vrefresh : Nat) : Nat :=
  if factory = true then idle_vrefresh else 0

/-- condition guarding the TE-setting block of ct3a_set_panel_feat:
FEAT_EARLY_EXIT or FEAT_OP_NS changed (changed_feat is full when
enforcing) or the hardware-confirmed TE rate differs from the target. -/
def ct3a_te_cond (enforce : Bool) (feat hwfeat : FeatSet)
    (hw_te_rate te_freq : Nat) : Bool :=
  enforce || (feat.early_exit != hwfeat.early_exit)
    || (feat.op_ns != hwfeat.op_ns) || (hw_te_rate != te_freq)

/-- TE-setting commands of ct3a_set_panel_feat (the body of the TE block,
lines 328-364 of panel-gs-ct3a.c). -/
def ct3a_te_cmds (rev : PanelRev) (feat : FeatSet) (force_changeable_te : Bool)
    (is_vrr : Bool) (te_freq : Nat) : List (List Nat) :=
  if feat.early_exit = true ∧ force_changeable_te = false then
    if is_vrr = true ∧ te_freq = 240 then
      [[0xB0, 0x00, 0x08, 0xB9],
       if feat.op_ns = true then [0xB9, 0x08, 0x1C, 0x00, 0x00, 0x01, 0xC6, 0x00, 0x01]
       else [0xB9, 0x08, 0x1C, 0x00, 0x00, 0x03, 0xE0, 0x00, 0x01],
       [0xB9, 0x61]]
    else
      (if rev.idx < PanelRev.EVT1.idx then [[0xB9, 0x51, 0x51, 0x00, 0x00]]
       else [[0xB9, 0x51]])
        ++ [[0xB0, 0x00, 0x02, 0xB9]]
        ++ (if feat.op_ns = true ∨ te_freq ≠ 60 then [[0xB9, 0x00]] else [[0xB9, 0x01]])
  else
    if rev = .PROTO1 then [[0xB9, 0x00, 0x51, 0x00, 0x00]]
    else if rev = .PROTO1_1 ∨ rev = .PROTO1_2 then [[0xB9, 0x04, 0x51, 0x00, 0x00]]
    else [[0xB9, 0x04]]

/-- TE option recorded by the TE block (fixed TE when early exit is on
and changeable TE is not forced, changeable TE otherwise). -/
def ct3a_te_opt (feat : FeatSet) (force_changeable_te : Bool) : TexOpt :=
  if feat.early_exit = true ∧ force_changeable_te = false then .fixed else .changeable

/-- early-exit enable/disable commands of ct3a_set_panel_feat
(lines 370-377 of panel-gs-ct3a.c). -/
def ct3a_ee_cmds (is_vrr : Bool) (feat : FeatSet) : List (List Nat) :=
  [[0xB0, 0x00, 0x01, 0xBD],
   [0xBD, if is_vrr = true then 0x41 else if feat.early_exit = true then 0x01 else 0x81]]

/-- manual-mode frequency byte for NS operation (lines 463-479 of
panel-gs-ct3a.c); the last branch is the 60 Hz default. -/
def ct3a_manual_ns_val (rev : PanelRev) (vrefresh : Nat) : Nat :=
  if vrefresh = 1 then (if PanelRev.PROTO1_2.idx ≤ rev.idx then 0x1E else 0x1D)
  else if vrefresh = 10 then 0x1C
  else if vrefresh = 30 then 0x19
  else 0x18

/-- manual-mode frequency byte for HS operation (lines 483-504 of
panel-gs-ct3a.c); the last branch is the 120 Hz default. -/
def ct3a_manual_hs_val (rev : PanelRev) (vrefresh : Nat) : Nat :=
  if vrefresh = 1 then 0x06
  else if vrefresh = 10 then 0x05
  else if vrefresh = 30 then (if rev.idx < PanelRev.EVT1.idx then 0x02 else 0x03)
  else if vrefresh = 60 then (if rev.idx < PanelRev.EVT1.idx then 0x01 else 0x02)
  else 0x00

/-- frequency-setting events of ct3a_set_panel_feat (lines 385-511 of
panel-gs-ct3a.c): auto frame-insertion programming when FEAT_FRAME_AUTO
is set, manual frequency programming otherwise.  dev_warn calls for an
unsupported frequency are recorded as warn events (site 0 = auto NS,
1 = auto HS, 2 = manual NS, 3 = manual HS). -/
def ct3a_freq_events (rev : PanelRev) (feat : FeatSet) (is_vrr : Bool)
    (vrefresh idle_vrefresh : Nat) : List PanelEvent :=
  if feat.frame_auto = true then
    [PanelEvent.emit [0x60, if feat.op_ns = true then 0x18 else 0x00],
     PanelEvent.emit [0xBD, 0xE3],
     PanelEvent.emit [0xB0, 0x00, 0x13, 0xBD]]
      ++ (if feat.op_ns = true then
            if idle_vrefresh = 30 then [PanelEvent.emit [0xBD, 0x00, 0x04]]
            else if idle_vrefresh = 10 then [PanelEvent.emit [0xBD, 0x00, 0x14]]
            else (if idle_vrefresh ≠ 1 then [PanelEvent.warn 0] else [])
              ++ [PanelEvent.emit [0xBD, 0x00, 0xEC]]
          else
            if idle_vrefresh = 60 then [PanelEvent.emit [0xBD, 0x00, 0x02]]
            else if idle_vrefresh = 30 then [PanelEvent.emit [0xBD, 0x00, 0x06]]
            else if idle_vrefresh = 10 then [PanelEvent.emit [0xBD, 0x00, 0x16]]
            else (if idle_vrefresh ≠ 1 then [PanelEvent.warn 1] else [])
              ++ [PanelEvent.emit [0xBD, 0x00, 0xEC]])
      ++ [PanelEvent.emit [0xB0, 0x00, 0x9E, 0xBD],
          PanelEvent.emit (if feat.op_ns = true then
              [0xBD, 0x00, 0x00, 0x00, 0x04, 0x00, 0x14, 0x00, 0x00]
            else [0xBD, 0x00, 0x00, 0x00, 0x02, 0x00, 0x06, 0x00, 0x16]),
          PanelEvent.emit [0xB0, 0x00, 0xAE, 0xBD],
          PanelEvent.emit (if feat.op_ns = true then [0xBD, 0x00, 0x02, 0x00, 0x00]
            else [0xBD, 0x00, 0x00, 0x02, 0x00])]
      ++ (if PanelRev.PROTO1_2.idx ≤ rev.idx then
            [PanelEvent.emit (if feat.op_ns = true then
                (if rev = .PROTO1_2 then [0xB0, 0x00, 0x85] else [0xB0, 0x00, 0x85, 0xBD])
              else
                (if rev = .PROTO1_2 then [0xB0, 0x00, 0x83] else [0xB0, 0x00, 0x83, 0xBD])),
             PanelEvent.emit [0xBD, 0x00]]
          else [])
  else
    (if is_vrr = false then [PanelEvent.emit [0xBD, 0xE1]] else [])
      ++ (if feat.op_ns = true then
            (if is_vrr = true then
               [PanelEvent.emit [0xB0, 0x00, 0x83, 0xBD], PanelEvent.emit [0xBD, 0x00],
                PanelEvent.emit [0xB9, 0x61]]
             else [])
              ++ [PanelEvent.emit [0xF2, 0x01]]
              ++ (if vrefresh ≠ 1 ∧ vrefresh ≠ 10 ∧ vrefresh ≠ 30 ∧ vrefresh ≠ 60 then
                    [PanelEvent.warn 2]
                  else [])
          else
            [PanelEvent.emit [0xF2, 0x01]]
              ++ (if vrefresh ≠ 1 ∧ vrefresh ≠ 10 ∧ vrefresh ≠ 30 ∧ vrefresh ≠ 60 ∧
                      vrefresh ≠ 120 then
                    [PanelEvent.warn 3]
                  else []))
      ++ (if is_vrr = true then
            [PanelEvent.emit [0x60, if feat.op_ns = true then ct3a_manual_ns_val rev vrefresh
                else ct3a_manual_hs_val rev vrefresh],
             PanelEvent.flush]
          else
            [PanelEvent.emit [0x60, if feat.op_ns = true then ct3a_manual_ns_val rev vrefresh
                else ct3a_manual_hs_val rev vrefresh]])

/-- ct3a_set_panel_feat (panel-gs-ct3a.c, lines 279-523).  `factory`
selects the PANEL_FACTORY_BUILD configuration (true: the override block
compiled out).  Returns the new panel state and the trace of events in
program order.  In the early-return (no change, not enforced) path the
trace is empty, but the feat-pointer writes of the override block have
already happened, so sw_status.feat keeps them. -/
def ct3a_set_panel_feat (factory : Bool) (s : Ct3aState) (pmode : GsPanelMode)
    (idle_vrefresh0 : Nat) (enforce : Bool) : Ct3aState × List PanelEvent :=
  let te_freq := pmode.te_freq
  let is_vrr := pmode.is_vrr
  let feat := ct3a_eff_feat factory s pmode
  let vrefresh := ct3a_eff_vrefresh factory pmode
  let idle_vrefresh := ct3a_eff_idle_vrefresh factory idle_vrefresh0
  let s0 : Ct3aState := { s with sw := { s.sw with feat := feat } }
  if enforce = false ∧ feat = s.hw.feat ∧ vrefresh = s.hw.vrefresh ∧
      idle_vrefresh = s.hw.idle_vrefresh ∧ te_freq = s.hw.te.rate_hz then
    (s0, [])
  else
    let teC := ct3a_te_cond enforce feat s.hw.feat s.hw.te.rate_hz te_freq
    let teEvents : List PanelEvent :=
      if teC = true then
        (ct3a_te_cmds s.panel_rev feat s.force_changeable_te is_vrr te_freq).map
            PanelEvent.emit
          ++ [PanelEvent.setHwTeOption (ct3a_te_opt feat s.force_changeable_te)]
      else []
    let bufEvents : List PanelEvent :=
      [PanelEvent.emit unlock_cmd_f0, PanelEvent.setSwTeRate te_freq]
        ++ teEvents
        ++ (ct3a_ee_cmds is_vrr feat).map PanelEvent.emit
        ++ ct3a_freq_events s.panel_rev feat is_vrr vrefresh idle_vrefresh
        ++ (if is_vrr = true then [PanelEvent.emit ltps_update, PanelEvent.flush]
            else [PanelEvent.emit ltps_update])
        ++ [PanelEvent.emit lock_cmd_f0]
    let events := bufEvents ++
      [PanelEvent.flush, PanelEvent.setHwVrefresh vrefresh,
       PanelEvent.setHwIdleVrefresh idle_vrefresh, PanelEvent.setHwTeRate te_freq,
       PanelEvent.setHwFeat feat]
    let hwTeOpt := if teC = true then ct3a_te_opt feat s.force_changeable_te else s.hw.te.opt
    ({ s0 with
        sw := { s0.sw with te := { s0.sw.te with rate_hz := te_freq } },
        hw := { feat := feat, vrefresh := vrefresh, idle_vrefresh := idle_vrefresh,
                te := { rate_hz := te_freq, opt := hwTeOpt } } },
     events)

/-- ct3a_update_panel_feat: reconfigure with the current mode and the
current auto-mode vrefresh. -/
def ct3a_update_panel_feat (factory : Bool) (s : Ct3aState) (enforce : Bool) :
    Ct3aState × List PanelEvent :=
  ct3a_set_panel_feat factory s s.current_mode s.auto_mode_vrefresh enforce

/-- ct3a_set_op_hz (panel-gs-ct3a.c, lines 850-894; the validation and
state update are textually identical in panel-google-ct3a.c).  Returns
the new state, the int return value and the trace of the feature rewrite
triggered when the panel is active.  The trailing one-vblank wait for
hz = 120 is a pure delay and leaves no modelled state. -/
def ct3a_set_op_hz (factory : Bool) (s : Ct3aState) (hz : Nat) :
    Ct3aState × Int × List PanelEvent :=
  let vrefresh := s.current_mode.vrefresh
  if s.current_mode.is_vrr = true then (s, -EINVAL, [])
  else if vrefresh > hz ∨ (hz ≠ 60 ∧ hz ≠ 120) then (s, -EINVAL, [])
  else
    let s1 : Ct3aState :=
      { s with op_hz := hz,
               sw := { s.sw with feat := { s.sw.feat with op_ns := decide (hz = 60) } } }
    let r := if s1.panel_active = true then ct3a_update_panel_feat factory s1 false
             else (s1, [])
    (r.1, 0, r.2)

/-- is_auto_mode_allowed (panel-gs-ct3a.c, lines 225-239; identical in
panel-google-ct3a.c).  delta_ms is the value gs_panel_get_idle_time_delta
reads from the clock. -/
def is_auto_mode_allowed (s : Ct3aState) (delta_ms : Nat) : Bool :=
  if s.dimming_on = true then false
  else if s.idle_delay_ms ≠ 0 ∧ delta_ms < s.idle_delay_ms then false
  else s.panel_idle_enabled

/-- ct3a_get_min_idle_vrefresh (panel-gs-ct3a.c, lines 241-268; textually
identical in panel-google-ct3a.c, lines 268-295): quantize the configured
min_vrefresh to {1, 10, 30} and drop to 0 when auto mode is not allowed,
the configuration is negative or above 30, or the quantized value is not
strictly below the mode's vrefresh. -/
def ct3a_get_min_idle_vrefresh (s : Ct3aState) (delta_ms : Nat)
    (pmode : GsPanelMode) : Nat :=
  let vrefresh : Int := (pmode.vrefresh : Int)
  if s.min_vrefresh < 0 ∨ is_auto_mode_allowed s delta_ms = false then 0
  else
    let q : Option Int :=
      if s.min_vrefresh ≤ 1 then some 1
      else if s.min_vrefresh ≤ 10 then some 10
      else if s.min_vrefresh ≤ 30 then some 30
      else none
    match q with
    | none => 0
    | some m => if m ≥ vrefresh then 0 else m.toNat

/-- ct3a_set_brightness (panel-gs-ct3a.c, lines 896-931).  Returns the
new state, the int return value and the event trace; the delegation to
the binned-LP helper (registered as gs_panel_set_binned_lp_helper in
ct3a_gs_funcs) and the final gs_dcs_set_brightness call are recorded as
events, the latter carrying the byte-swapped value. -/
def ct3a_set_brightness (s : Ct3aState) (br : Nat) :
    Ct3aState × Int × List PanelEvent :=
  if s.current_mode.is_lp_mode = true then
    if s.is_pixel_off = true then
      ({ s with is_pixel_off := false }, 0,
       [PanelEvent.emit [MIPI_DCS_ENTER_NORMAL_MODE], PanelEvent.flush,
        PanelEvent.binnedLp br])
    else (s, 0, [PanelEvent.binnedLp br])
  else if br = 0 then
    if s.is_pixel_off = false then
      ({ s with is_pixel_off := true }, 0, [PanelEvent.emit pixel_off, PanelEvent.flush])
    else (s, 0, [])
  else if s.is_pixel_off = true then
    ({ s with is_pixel_off := false }, 0,
     [PanelEvent.emit [MIPI_DCS_ENTER_NORMAL_MODE], PanelEvent.flush,
      PanelEvent.dcsSetBrightness (swab16 br)])
  else (s, 0, [PanelEvent.dcsSetBrightness (swab16 br)])

/-- revision code extracted by ct3a_get_panel_rev from the 32-bit panel
ID (panel-gs-ct3a.c, lines 1143-1145). -/
def ct3a_extract_rev_code (id : Nat) : Nat :=
  let build_code := (id &&& 0xFF00) >>> 8
  ((build_code &&& 0xE0) >>> 3) ||| ((build_code &&& 0x0C) >>> 2)

/-- the switch of ct3a_get_panel_rev (panel-gs-ct3a.c, lines 1147-1181):
recognized codes map to their revision, everything else to
PANEL_REV_LATEST. -/
def ct3a_rev_of_code (rev : Nat) : PanelRev :=
  if rev = 0x00 then .PROTO1
  else if rev = 0x01 then .PROTO1_1
  else if rev = 0x02 then .PROTO1_2
  else if rev = 0x0C then .EVT1
  else if rev = 0x0E then .EVT1_1
  else if rev = 0x0F then .EVT1_2
  else if rev = 0x11 then .DVT1
  else if rev = 0x12 then .DVT1_1
  else if rev = 0x14 then .PVT
  else .LATEST

/-- ct3a_get_panel_rev (panel-gs-ct3a.c, lines 1141-1184) as a pure
function from the panel ID to the stored revision. -/
def ct3a_get_panel_rev (id : Nat) : PanelRev :=
  ct3a_rev_of_code (ct3a_extract_rev_code id)

/-- the revision codes listed in the switch of ct3a_get_panel_rev. -/
def ct3a_recognized_codes : List Nat :=
  [0x00, 0x01, 0x02, 0x0C, 0x0E, 0x0F, 0x11, 0x12, 0x14]

/-- the five modes of ct3a_modes under PANEL_FACTORY_BUILD: MRR modes at
1, 10, 30, 60 and 120 Hz, no TE multiplier flags, no VRR type, all with
idle_mode GIDLE_MODE_UNSUPPORTED. -/
def ct3a_modes_factory : List GsPanelMode :=
  [⟨1, 1, false, false, false, .unsupported⟩,
   ⟨10, 10, false, false, false, .unsupported⟩,
   ⟨30, 30, false, false, false, .unsupported⟩,
   ⟨60, 60, false, false, false, .unsupported⟩,
   ⟨120, 120, false, false, false, .unsupported⟩]

/-- the five modes of ct3a_modes outside PANEL_FACTORY_BUILD: MRR 60 and
120 Hz, plus the VRR modes 120:240 (TE_FREQ_X2), 120:120 (TE_FREQ_X1)
and 60:240 (TE_FREQ_X4 with DRM_MODE_FLAG_NS). -/
def ct3a_modes_device : List GsPanelMode :=
  [⟨60, 60, false, false, false, .unsupported⟩,
   ⟨120, 120, false, false, false, .unsupported⟩,
   ⟨120, 240, true, false, false, .unsupported⟩,
   ⟨120, 120, true, false, false, .unsupported⟩,
   ⟨60, 240, true, true, false, .unsupported⟩]

/-- the declared ct3a mode table of the selected build configuration. -/
def ct3a_mode_list (factory : Bool) : List GsPanelMode :=
  if factory = true then ct3a_modes_factory else ct3a_modes_device

/-! ct3d BEh sanity-read retry (panel-gs-ct3d.c). -/

/-- CT3D_BEH_LEN. -/
def CT3D_BEH_LEN : Nat := 10

/-- CT3D_READ_BEH_RETRY_COUNT. -/
def CT3D_READ_BEH_RETRY_COUNT : Nat := 3

/-- outcome of one mipi_dsi_dcs_read of register 0xBE: the bus read
fails, or it returns the ten buffer bytes. -/
inductive BehRead where
  | fail
  | ok (buf : List Nat)
deriving DecidableEq

/-- the sanity pattern ct3d_read_beh checks on the BEh bytes
(panel-gs-ct3d.c, lines 431-433); the buffer is zero-initialized, which
getD reproduces for missing positions. -/
def beh_expected (buf : List Nat) : Bool :=
  buf.getD 0 0 == 0 && buf.getD 1 0 == 2 && buf.getD 2 0 == 0 && buf.getD 5 0 == 0
    && buf.getD 7 0 == 0 && buf.getD 8 0 == 6 && buf.getD 9 0 == 3

/-- ct3d_read_beh (panel-gs-ct3d.c, lines 415-435): -EIO when the read
fails, -EAGAIN when the pattern does not match, 0 on success. -/
def ct3d_read_beh : BehRead → Int
  | .fail => -EIO_errno
  | .ok buf => if beh_expected buf = true then 0 else -EAGAIN

/-- observable steps of the ct3d enable-path BEh handling: a DSI command,
an SPI clock-speed change (ct3d_change_spi_speed, carrying the speed
argument), or a BEh read attempt carrying its return value. -/
inductive Ct3dEvent where
  | cmd (bytes : List Nat)
  | spiSpeed (speed : Nat)
  | readBeh (ret : Int)
deriving DecidableEq

/-- the retry loop of ct3d_enable (panel-gs-ct3d.c, lines 472-476):
`for (retry = 0; retry < CT3D_READ_BEH_RETRY_COUNT && ret; retry++)`,
each iteration sending an enter-sleep and an exit-sleep command and
re-reading BEh.  `oracle k` is the outcome of the k-th read of the
enable path (read 0 is the initial one before the loop); `fuel` is the
number of loop iterations still permitted by the retry bound, so the
call with fuel = CT3D_READ_BEH_RETRY_COUNT and retry = 0 runs the exact
source loop.  Returns the final retry counter, the final ret and the
trace. -/
def ct3d_beh_loop (oracle : Nat → BehRead) :
    Nat → Nat → Int → Nat × Int × List Ct3dEvent
  | 0, retry, ret => (retry, ret, [])
  | fuel + 1, retry, ret =>
    if ret = 0 then (retry, ret, [])
    else
      let r := ct3d_read_beh (oracle (retry + 1))
      let t := ct3d_beh_loop oracle fuel (retry + 1) r
      (t.1, t.2.1,
       [Ct3dEvent.cmd [0x10], Ct3dEvent.cmd [0x11], Ct3dEvent.readBeh r] ++ t.2.2)

/-- the BEh verification part of ct3d_enable (panel-gs-ct3d.c, lines
466-484): read BEh once; on failure switch the SPI clock to the
alternate speed (23 MHz), run the sleep/wake retry loop, and restore the
SPI clock (34 MHz) afterwards.  Returns the final retry counter, the
final ret and the trace. -/
def ct3d_enable_beh (oracle : Nat → BehRead) : Nat × Int × List Ct3dEvent :=
  let r0 := ct3d_read_beh (oracle 0)
  if r0 = 0 then (0, 0, [Ct3dEvent.readBeh r0])
  else
    let t := ct3d_beh_loop oracle CT3D_READ_BEH_RETRY_COUNT 0 r0
    (t.1, t.2.1,
     [Ct3dEvent.readBeh r0, Ct3dEvent.spiSpeed 23] ++ t.2.2 ++ [Ct3dEvent.spiSpeed 34])

/-! concrete fixtures used by witnesses and counterexamples. -/

/-- all-clear feature bitmap. -/
def featAllOff : FeatSet := ⟨false, false, false, false⟩

/-- the 120 Hz MRR mode of the ct3a mode table. -/
def mrrMode120 : GsPanelMode := ⟨120, 120, false, false, false, .unsupported⟩

/-- the ct3a AOD (LP) mode: 30 Hz with is_lp_mode set. -/
def lpMode30 : GsPanelMode := ⟨30, 30, false, false, true, .unsupported⟩

/-- a baseline panel state mirroring the probe defaults of
ct3a_panel_probe (op_hz 120, hw vrefresh and TE rate 60, pixel off
cleared). -/
def baseState : Ct3aState :=
  { sw := ⟨featAllOff, 60, 0, ⟨60, .changeable⟩⟩,
    hw := ⟨featAllOff, 60, 0, ⟨60, .changeable⟩⟩,
    panel_rev := .PVT,
    auto_mode_vrefresh := 0,
    force_changeable_te := false,
    is_pixel_off := false,
    op_hz := 120,
    dimming_on := false,
    min_vrefresh := 0,
    idle_delay_ms := 0,
    panel_idle_enabled := true,
    panel_active := true,
    current_mode := mrrMode120 }

/-! theorems settling the claims. -/

/-- C2: the idle vrefresh computed by
ct3a_get_min_idle_vrefresh is 0 or an element of {1, 10, 30} strictly
below the mode's vrefresh, and a configured min_vrefresh above 30 or
below 0 always gives 0. -/
theorem ct3a_get_min_idle_vrefresh_quantized :
    ∀ (s : Ct3aState) (delta_ms : Nat) (pmode : GsPanelMode),
      (ct3a_get_min_idle_vrefresh s delta_ms pmode = 0 ∨
        (ct3a_get_min_idle_vrefresh s delta_ms pmode ∈ ([1, 10, 30] : List Nat) ∧
          ct3a_get_min_idle_vrefresh s delta_ms pmode < pmode.vrefresh)) ∧
      (30 < s.min_vrefresh → ct3a_get_min_idle_vrefresh s delta_ms pmode = 0) ∧
      (s.min_vrefresh < 0 → ct3a_get_min_idle_vrefresh s delta_ms pmode = 0) := by
  intro s delta pmode
  unfold ct3a_get_min_idle_vrefresh
  refine ⟨?_, ?_, ?_⟩ <;> split_ifs <;> simp_all <;>
    first
    | omega
    | (split_ifs <;> simp_all)

/-- C8: ct3a_get_panel_rev is the composition of code extraction and a
total code-to-revision table; the table maps the nine listed codes to
nine pairwise distinct revisions (injectivity) and every other code to
PANEL_REV_LATEST. -/
theorem ct3a_get_panel_rev_total_injective :
    (∀ id : Nat, ct3a_get_panel_rev id = ct3a_rev_of_code (ct3a_extract_rev_code id)) ∧
    (ct3a_recognized_codes.map ct3a_rev_of_code =
      [.PROTO1, .PROTO1_1, .PROTO1_2, .EVT1, .EVT1_1, .EVT1_2, .DVT1, .DVT1_1, .PVT]) ∧
    (∀ c₁ ∈ ct3a_recognized_codes, ∀ c₂ ∈ ct3a_recognized_codes,
        ct3a_rev_of_code c₁ = ct3a_rev_of_code c₂ → c₁ = c₂) ∧
    (∀ c : Nat, c ∉ ct3a_recognized_codes → ct3a_rev_of_code c = PanelRev.LATEST) := by
  refine ⟨fun _ => rfl, by decide, by decide, ?_⟩
  intro c hc
  simp only [ct3a_recognized_codes, List.mem_cons, List.not_mem_nil, or_false] at hc
  push_neg at hc
  obtain ⟨h0, h1, h2, h3, h4, h5, h6, h7, h8⟩ := hc
  simp [ct3a_rev_of_code, h0, h1, h2, h3, h4, h5, h6, h7, h8]

/-- op_hz is never written by ct3a_set_panel_feat. -/
theorem set_panel_feat_op_hz_eq (factory : Bool) (s : Ct3aState) (p : GsPanelMode)
    (i : Nat) (e : Bool) :
    (ct3a_set_panel_feat factory s p i e).1.op_hz = s.op_hz := by
  simp only [ct3a_set_panel_feat]
  split <;> rfl

/-- FEAT_OP_NS survives ct3a_set_panel_feat when the target mode is not
a VRR mode (the build-time override only rewrites it for VRR modes). -/
theorem set_panel_feat_op_ns_eq (factory : Bool) (s : Ct3aState) (p : GsPanelMode)
    (i : Nat) (e : Bool) (h : p.is_vrr = false) :
    (ct3a_set_panel_feat factory s p i e).1.sw.feat.op_ns = s.sw.feat.op_ns := by
  have hf : (ct3a_eff_feat factory s p).op_ns = s.sw.feat.op_ns := by
    cases factory <;> simp [ct3a_eff_feat, h]
  simp only [ct3a_set_panel_feat]
  split <;> exact hf

/-- C5: ct3a_set_op_hz rejects any hz outside {60, 120} and any hz below
the current mode's vrefresh with -EINVAL, leaving the whole state (in
particular op_hz and FEAT_OP_NS) unchanged, and whenever it returns 0 it
has stored hz into op_hz and set FEAT_OP_NS exactly when hz is 60. -/
theorem ct3a_set_op_hz_spec :
    ∀ (factory : Bool) (s : Ct3aState) (hz : Nat),
      (((hz ≠ 60 ∧ hz ≠ 120) ∨ hz < s.current_mode.vrefresh) →
        (ct3a_set_op_hz factory s hz).2.1 = -EINVAL ∧
        (ct3a_set_op_hz factory s hz).1 = s) ∧
      ((ct3a_set_op_hz factory s hz).2.1 = 0 →
        (ct3a_set_op_hz factory s hz).1.op_hz = hz ∧
        ((ct3a_set_op_hz factory s hz).1.sw.feat.op_ns = true ↔ hz = 60)) := by
  intro factory s hz
  by_cases hv : s.current_mode.is_vrr = true
  · refine ⟨fun _ => by simp [ct3a_set_op_hz, hv], fun h0 => absurd h0 ?_⟩
    simp [ct3a_set_op_hz, hv, EINVAL]
  · by_cases hr : s.current_mode.vrefresh > hz ∨ (hz ≠ 60 ∧ hz ≠ 120)
    · refine ⟨fun _ => by simp [ct3a_set_op_hz, hv, hr], fun h0 => absurd h0 ?_⟩
      simp [ct3a_set_op_hz, hv, hr, EINVAL]
    · refine ⟨fun h => absurd (h.elim Or.inr Or.inl) hr, fun _ => ?_⟩
      have hv' : s.current_mode.is_vrr = false := by simpa using hv
      by_cases ha : s.panel_active = true
      · simp only [ct3a_set_op_hz, if_neg hv, if_neg hr, ct3a_update_panel_feat, if_pos ha]
        rw [set_panel_feat_op_hz_eq, set_panel_feat_op_ns_eq _ _ _ _ _ hv']
        simp
      · simp only [ct3a_set_op_hz, if_neg hv, if_neg hr, if_neg ha]
        simp

/-- concrete call showing the claim behind
ct3a_set_panel_feat_enforce_sync fails as stated: outside
PANEL_FACTORY_BUILD an enforced rewrite records hw idle_vrefresh 0 and
hw vrefresh 1, not the passed idle vrefresh 10 or the mode's 120 Hz. -/
theorem ct3a_set_panel_feat_enforce_sync_cex :
    (ct3a_set_panel_feat false baseState mrrMode120 10 true).1.hw.idle_vrefresh ≠ 10 ∧
    (ct3a_set_panel_feat false baseState mrrMode120 10 true).1.hw.vrefresh ≠
      mrrMode120.vrefresh := by
  decide

/-- C1 (amended): after any enforced ct3a_set_panel_feat call the
hardware-confirmed feature bitmap equals the software-desired one and
the hardware-confirmed vrefresh, idle vrefresh and TE rate equal the
effective values of the call (the passed-in/mode-derived values under
PANEL_FACTORY_BUILD, the overridden values vrefresh 1 / idle 0
otherwise, the TE rate in every build), and the trace places those four
hardware-state assignments strictly after the final flush of the command
buffer. -/
theorem ct3a_set_panel_feat_enforce_sync :
    ∀ (factory : Bool) (s : Ct3aState) (pmode : GsPanelMode) (idle_vrefresh0 : Nat),
      (ct3a_set_panel_feat factory s pmode idle_vrefresh0 true).1.hw.feat =
        (ct3a_set_panel_feat factory s pmode idle_vrefresh0 true).1.sw.feat ∧
      (ct3a_set_panel_feat factory s pmode idle_vrefresh0 true).1.hw.vrefresh =
        ct3a_eff_vrefresh factory pmode ∧
      (ct3a_set_panel_feat factory s pmode idle_vrefresh0 true).1.hw.idle_vrefresh =
        ct3a_eff_idle_vrefresh factory idle_vrefresh0 ∧
      (ct3a_set_panel_feat factory s pmode idle_vrefresh0 true).1.hw.te.rate_hz =
        pmode.te_freq ∧
      ∃ pre, (ct3a_set_panel_feat factory s pmode idle_vrefresh0 true).2 =
        pre ++
          [PanelEvent.flush,
           PanelEvent.setHwVrefresh (ct3a_eff_vrefresh factory pmode),
           PanelEvent.setHwIdleVrefresh (ct3a_eff_idle_vrefresh factory idle_vrefresh0),
           PanelEvent.setHwTeRate pmode.te_freq,
           PanelEvent.setHwFeat (ct3a_eff_feat factory s pmode)] := by
  intro factory s pmode idle0
  refine ⟨rfl, rfl, rfl, rfl, ⟨_, rfl⟩⟩

/-- state used by the C4 counterexample: software and hardware bitmaps
equal (early exit on, frame auto off), hardware vrefresh/TE rate 120,
idle 0 — exactly the claim's no-change hypothesis for the 120 Hz MRR
mode. -/
def noChangeState : Ct3aState :=
  { baseState with
      sw := ⟨⟨false, true, false, false⟩, 120, 0, ⟨120, .changeable⟩⟩,
      hw := ⟨⟨false, true, false, false⟩, 120, 0, ⟨120, .changeable⟩⟩ }

/-- concrete call showing the no-op claim fails as stated: outside
PANEL_FACTORY_BUILD, even when the software bitmap equals the hardware
bitmap and the mode's vrefresh, the passed idle vrefresh and the TE rate
all equal the hardware-confirmed values, the override (vrefresh forced
to 1) makes the call emit commands. -/
theorem ct3a_set_panel_feat_noop_cex :
    noChangeState.sw.feat = noChangeState.hw.feat ∧
    mrrMode120.vrefresh = noChangeState.hw.vrefresh ∧
    (0 : Nat) = noChangeState.hw.idle_vrefresh ∧
    mrrMode120.te_freq = noChangeState.hw.te.rate_hz ∧
    (ct3a_set_panel_feat false noChangeState mrrMode120 0 false).2 ≠ [] := by
  decide

/-- C4 (amended): in the PANEL_FACTORY_BUILD configuration (where the
production override block is compiled out), a non-enforced
ct3a_set_panel_feat call whose software bitmap equals the hardware
bitmap and whose target vrefresh, idle vrefresh and TE rate equal the
hardware-confirmed values is a strict no-op: no event is produced (no
command added or flushed) and the state is returned unchanged. -/
theorem ct3a_set_panel_feat_noop :
    ∀ (s : Ct3aState) (pmode : GsPanelMode) (idle_vrefresh0 : Nat),
      s.sw.feat = s.hw.feat →
      pmode.vrefresh = s.hw.vrefresh →
      idle_vrefresh0 = s.hw.idle_vrefresh →
      pmode.te_freq = s.hw.te.rate_hz →
      ct3a_set_panel_feat true s pmode idle_vrefresh0 false = (s, []) := by
  intro s pmode idle0 h1 h2 h3 h4
  simp only [ct3a_set_panel_feat]
  rw [if_pos ⟨trivial, h1, h2, h3, h4⟩]
  rfl

/-- witness for ct3a_set_panel_feat_noop at the concrete no-change state
and the 120 Hz MRR mode. -/
theorem ct3a_set_panel_feat_noop_witness :
    noChangeState.sw.feat = noChangeState.hw.feat ∧
    mrrMode120.vrefresh = noChangeState.hw.vrefresh ∧
    (0 : Nat) = noChangeState.hw.idle_vrefresh ∧
    mrrMode120.te_freq = noChangeState.hw.te.rate_hz ∧
    ct3a_set_panel_feat true noChangeState mrrMode120 0 false = (noChangeState, []) :=
  ⟨rfl, rfl, rfl, rfl,
    ct3a_set_panel_feat_noop noChangeState mrrMode120 0 rfl rfl rfl rfl⟩

/-- state used by the C6 counterexample: panel in the AOD (LP) mode with
the pixel-off flag clear. -/
def lpState : Ct3aState := { baseState with current_mode := lpMode30 }

/-- concrete call showing the brightness-0 claim fails as stated: in LP
(AOD) mode a brightness-0 call does not emit the pixel-off command at
all — it delegates to the binned-LP handler. -/
theorem ct3a_set_brightness_pixel_off_cex :
    (ct3a_set_brightness lpState 0).2.2 = [PanelEvent.binnedLp 0] ∧
    PanelEvent.emit pixel_off ∉ (ct3a_set_brightness lpState 0).2.2 := by
  decide

/-- C6 (amended): outside LP mode, a brightness-0 call never emits a DCS
brightness write (so never DBV=0); it emits exactly the pixel-off
command (and a flush) when the pixel-off flag was not already set and
nothing otherwise, leaving the flag set; and a nonzero brightness call
made while the pixel-off flag is set emits the enter-normal-mode command
before the byte-swapped DCS brightness write and clears the flag. -/
theorem ct3a_set_brightness_pixel_off_quirk :
    ∀ (s : Ct3aState) (br : Nat),
      s.current_mode.is_lp_mode = false →
      ((br = 0 →
          (∀ v, PanelEvent.dcsSetBrightness v ∉ (ct3a_set_brightness s br).2.2) ∧
          (ct3a_set_brightness s br).2.2 =
            (if s.is_pixel_off = true then []
             else [PanelEvent.emit pixel_off, PanelEvent.flush]) ∧
          (ct3a_set_brightness s br).1.is_pixel_off = true) ∧
        (br ≠ 0 → s.is_pixel_off = true →
          (ct3a_set_brightness s br).2.2 =
            [PanelEvent.emit [MIPI_DCS_ENTER_NORMAL_MODE], PanelEvent.flush,
             PanelEvent.dcsSetBrightness (swab16 br)] ∧
          (ct3a_set_brightness s br).1.is_pixel_off = false)) := by
  intro s br hlp
  constructor
  · intro hbr
    subst hbr
    cases hpo : s.is_pixel_off <;>
      simp [ct3a_set_brightness, hlp, hpo]
  · intro hbr hpo
    simp [ct3a_set_brightness, hlp, hpo, hbr]

/-- witness for ct3a_set_brightness_pixel_off_quirk: the base state is
not in LP mode, and brightness 0 there emits the pixel-off command. -/
theorem ct3a_set_brightness_pixel_off_quirk_witness :
    baseState.current_mode.is_lp_mode = false ∧
    ((0 = 0 →
        (∀ v, PanelEvent.dcsSetBrightness v ∉ (ct3a_set_brightness baseState 0).2.2) ∧
        (ct3a_set_brightness baseState 0).2.2 =
          (if baseState.is_pixel_off = true then []
           else [PanelEvent.emit pixel_off, PanelEvent.flush]) ∧
        (ct3a_set_brightness baseState 0).1.is_pixel_off = true) ∧
      (0 ≠ 0 → baseState.is_pixel_off = true →
        (ct3a_set_brightness baseState 0).2.2 =
          [PanelEvent.emit [MIPI_DCS_ENTER_NORMAL_MODE], PanelEvent.flush,
           PanelEvent.dcsSetBrightness (swab16 0)] ∧
        (ct3a_set_brightness baseState 0).1.is_pixel_off = false)) :=
  ⟨rfl, ct3a_set_brightness_pixel_off_quirk baseState 0 rfl⟩

/-- C10: in LP (AOD) mode ct3a_set_brightness never emits the pixel-off
command for any brightness level; it first leaves the pixel-off state
(enter-normal-mode, flag cleared) when needed, then delegates every
level, 0 included, to the binned-LP handler and returns 0. -/
theorem ct3a_set_brightness_lp_no_pixel_off :
    ∀ (s : Ct3aState) (br : Nat),
      s.current_mode.is_lp_mode = true →
      PanelEvent.emit pixel_off ∉ (ct3a_set_brightness s br).2.2 ∧
      (ct3a_set_brightness s br).2.2 =
        (if s.is_pixel_off = true then
          [PanelEvent.emit [MIPI_DCS_ENTER_NORMAL_MODE], PanelEvent.flush]
         else []) ++ [PanelEvent.binnedLp br] ∧
      (ct3a_set_brightness s br).1.is_pixel_off = false ∧
      (ct3a_set_brightness s br).2.1 = 0 := by
  intro s br hlp
  cases hpo : s.is_pixel_off <;>
    simp [ct3a_set_brightness, hlp, hpo, pixel_off, MIPI_DCS_ENTER_NORMAL_MODE]

/-- witness for ct3a_set_brightness_lp_no_pixel_off at the LP-mode state
with the pixel-off flag set and brightness 0. -/
theorem ct3a_set_brightness_lp_no_pixel_off_witness :
    ({ lpState with is_pixel_off := true } : Ct3aState).current_mode.is_lp_mode = true ∧
    (PanelEvent.emit pixel_off ∉
        (ct3a_set_brightness { lpState with is_pixel_off := true } 0).2.2 ∧
      (ct3a_set_brightness { lpState with is_pixel_off := true } 0).2.2 =
        (if ({ lpState with is_pixel_off := true } : Ct3aState).is_pixel_off = true then
          [PanelEvent.emit [MIPI_DCS_ENTER_NORMAL_MODE], PanelEvent.flush]
         else []) ++ [PanelEvent.binnedLp 0] ∧
      (ct3a_set_brightness { lpState with is_pixel_off := true } 0).1.is_pixel_off = false ∧
      (ct3a_set_brightness { lpState with is_pixel_off := true } 0).2.1 = 0) :=
  ⟨rfl, ct3a_set_brightness_lp_no_pixel_off { lpState with is_pixel_off := true } 0 rfl⟩

/-- C9: the BEh verification of ct3d_enable runs the sleep/wake-and-
re-read retry at most CT3D_READ_BEH_RETRY_COUNT (3) times, stops at the
first successful read (every read attempt before the stopping point
failed, and when the loop stops below the bound the last read
succeeded), does nothing but the single initial read when that read
already matches, and on the retry path switches to the alternate SPI
speed (23) and always restores the SPI speed (34) as the final step. -/
theorem ct3d_enable_beh_retry_bounded :
    ∀ (oracle : Nat → BehRead),
      (ct3d_enable_beh oracle).1 ≤ CT3D_READ_BEH_RETRY_COUNT ∧
      (ct3d_read_beh (oracle 0) = 0 →
        (ct3d_enable_beh oracle).1 = 0 ∧
        (ct3d_enable_beh oracle).2.2 = [Ct3dEvent.readBeh 0]) ∧
      (∀ j, j < (ct3d_enable_beh oracle).1 → ct3d_read_beh (oracle j) ≠ 0) ∧
      ((ct3d_enable_beh oracle).1 < CT3D_READ_BEH_RETRY_COUNT →
        ct3d_read_beh (oracle (ct3d_enable_beh oracle).1) = 0) ∧
      (ct3d_read_beh (oracle 0) ≠ 0 →
        Ct3dEvent.spiSpeed 23 ∈ (ct3d_enable_beh oracle).2.2 ∧
        (ct3d_enable_beh oracle).2.2.getLast? = some (Ct3dEvent.spiSpeed 34)) := by
  intro oracle
  by_cases h0 : ct3d_read_beh (oracle 0) = 0
  · refine ⟨?_, fun _ => ?_, ?_, ?_, fun hne => absurd h0 hne⟩ <;>
      simp [ct3d_enable_beh, h0, CT3D_READ_BEH_RETRY_COUNT]
  · by_cases h1 : ct3d_read_beh (oracle 1) = 0
    · have hrun : ct3d_enable_beh oracle =
          (1, 0, [Ct3dEvent.readBeh (ct3d_read_beh (oracle 0)), Ct3dEvent.spiSpeed 23,
            Ct3dEvent.cmd [0x10], Ct3dEvent.cmd [0x11], Ct3dEvent.readBeh 0,
            Ct3dEvent.spiSpeed 34]) := by
        simp [ct3d_enable_beh, ct3d_beh_loop, CT3D_READ_BEH_RETRY_COUNT, h0, h1]
      rw [hrun]
      refine ⟨(by decide : (1 : Nat) ≤ 3), fun hc => absurd hc h0, ?_, fun _ => ?_, fun _ => ?_⟩
      · intro j hj
        have hj0 : j = 0 := by omega
        rw [hj0]; exact h0
      · exact h1
      · simp
    · by_cases h2 : ct3d_read_beh (oracle 2) = 0
      · have hrun : ct3d_enable_beh oracle =
            (2, 0, [Ct3dEvent.readBeh (ct3d_read_beh (oracle 0)), Ct3dEvent.spiSpeed 23,
              Ct3dEvent.cmd [0x10], Ct3dEvent.cmd [0x11],
              Ct3dEvent.readBeh (ct3d_read_beh (oracle 1)),
              Ct3dEvent.cmd [0x10], Ct3dEvent.cmd [0x11], Ct3dEvent.readBeh 0,
              Ct3dEvent.spiSpeed 34]) := by
          simp [ct3d_enable_beh, ct3d_beh_loop, CT3D_READ_BEH_RETRY_COUNT, h0, h1, h2]
        rw [hrun]
        refine ⟨(by decide : (2 : Nat) ≤ 3), fun hc => absurd hc h0, ?_, fun _ => ?_, fun _ => ?_⟩
        · intro j hj
          interval_cases j
          · exact h0
          · exact h1
        · exact h2
        · simp
      · by_cases h3 : ct3d_read_beh (oracle 3) = 0
        · have hrun : ct3d_enable_beh oracle =
              (3, 0, [Ct3dEvent.readBeh (ct3d_read_beh (oracle 0)), Ct3dEvent.spiSpeed 23,
                Ct3dEvent.cmd [0x10], Ct3dEvent.cmd [0x11],
                Ct3dEvent.readBeh (ct3d_read_beh (oracle 1)),
                Ct3dEvent.cmd [0x10], Ct3dEvent.cmd [0x11],
                Ct3dEvent.readBeh (ct3d_read_beh (oracle 2)),
                Ct3dEvent.cmd [0x10], Ct3dEvent.cmd [0x11], Ct3dEvent.readBeh 0,
                Ct3dEvent.spiSpeed 34]) := by
            simp [ct3d_enable_beh, ct3d_beh_loop, CT3D_READ_BEH_RETRY_COUNT, h0, h1, h2, h3]
          rw [hrun]
          refine ⟨(by decide : (3 : Nat) ≤ 3), fun hc => absurd hc h0, ?_, fun hlt => absurd hlt (by decide : ¬(3 : Nat) < 3), fun _ => ?_⟩
          · intro j hj
            interval_cases j
            · exact h0
            · exact h1
            · exact h2
          · simp
        · have hrun : ct3d_enable_beh oracle =
              (3, ct3d_read_beh (oracle 3),
               [Ct3dEvent.readBeh (ct3d_read_beh (oracle 0)), Ct3dEvent.spiSpeed 23,
                Ct3dEvent.cmd [0x10], Ct3dEvent.cmd [0x11],
                Ct3dEvent.readBeh (ct3d_read_beh (oracle 1)),
                Ct3dEvent.cmd [0x10], Ct3dEvent.cmd [0x11],
                Ct3dEvent.readBeh (ct3d_read_beh (oracle 2)),
                Ct3dEvent.cmd [0x10], Ct3dEvent.cmd [0x11],
                Ct3dEvent.readBeh (ct3d_read_beh (oracle 3)),
                Ct3dEvent.spiSpeed 34]) := by
            simp [ct3d_enable_beh, ct3d_beh_loop, CT3D_READ_BEH_RETRY_COUNT, h0, h1, h2, h3]
          rw [hrun]
          refine ⟨(by decide : (3 : Nat) ≤ 3), fun hc => absurd hc h0, ?_, fun hlt => absurd hlt (by decide : ¬(3 : Nat) < 3), fun _ => ?_⟩
          · intro j hj
            interval_cases j
            · exact h0
            · exact h1
            · exact h2
          · simp

/-- filterMap to emits distributes over append. -/
theorem panelEmits_append (a b : List PanelEvent) :
    panelEmits (a ++ b) = panelEmits a ++ panelEmits b := by
  simp [panelEmits]

/-- the emits of a pure command list are the commands themselves. -/
theorem panelEmits_map_emit (l : List (List Nat)) :
    panelEmits (l.map PanelEvent.emit) = l := by
  induction l with
  | nil => rfl
  | cons a t ih =>
    simp only [panelEmits, List.map_cons, List.filterMap_cons] at ih ⊢
    rw [ih]

/-- composing the emit filter with the emit constructor keeps every
command. -/
theorem panelEmits_comp_emit (l : List (List Nat)) :
    List.filterMap
      ((fun e =>
          match e with
          | PanelEvent.emit b => some b
          | _ => none) ∘ PanelEvent.emit) l = l := by
  induction l with
  | nil => rfl
  | cons a t ih =>
    simp only [List.filterMap_cons, Function.comp_apply]
    rw [ih]

/-- C7: whenever ct3a_set_panel_feat produces events, the command
sequence reaching the DSI buffer is exactly the test-key unlock bytes,
then the TE configuration commands (present exactly when the TE block's
condition holds), then the early-exit write, then the
frequency/frame-insertion commands, then the LTPS update, and finally
the test-key lock bytes. -/
theorem ct3a_set_panel_feat_cmd_order :
    ∀ (factory : Bool) (s : Ct3aState) (pmode : GsPanelMode) (idle0 : Nat) (enforce : Bool),
      (ct3a_set_panel_feat factory s pmode idle0 enforce).2 ≠ [] →
      panelEmits (ct3a_set_panel_feat factory s pmode idle0 enforce).2 =
        [unlock_cmd_f0]
          ++ (if ct3a_te_cond enforce (ct3a_eff_feat factory s pmode) s.hw.feat
                s.hw.te.rate_hz pmode.te_freq = true then
                ct3a_te_cmds s.panel_rev (ct3a_eff_feat factory s pmode)
                  s.force_changeable_te pmode.is_vrr pmode.te_freq
              else [])
          ++ ct3a_ee_cmds pmode.is_vrr (ct3a_eff_feat factory s pmode)
          ++ panelEmits (ct3a_freq_events s.panel_rev (ct3a_eff_feat factory s pmode)
                pmode.is_vrr (ct3a_eff_vrefresh factory pmode)
                (ct3a_eff_idle_vrefresh factory idle0))
          ++ [ltps_update, lock_cmd_f0] := by
  intro factory s pmode idle0 enforce hne
  by_cases h : (enforce = false ∧ ct3a_eff_feat factory s pmode = s.hw.feat ∧
      ct3a_eff_vrefresh factory pmode = s.hw.vrefresh ∧
      ct3a_eff_idle_vrefresh factory idle0 = s.hw.idle_vrefresh ∧
      pmode.te_freq = s.hw.te.rate_hz)
  · exfalso
    apply hne
    simp only [ct3a_set_panel_feat]
    rw [if_pos h]
  · simp only [ct3a_set_panel_feat]
    rw [if_neg h]
    simp only [panelEmits_append]
    split_ifs with h1 h2 <;>
      simp [panelEmits_append, panelEmits_map_emit, panelEmits, panelEmits_comp_emit]

/-- witness for ct3a_set_panel_feat_cmd_order: an enforced rewrite of
the 120 Hz MRR mode from the probe-default state. -/
theorem ct3a_set_panel_feat_cmd_order_witness :
    (ct3a_set_panel_feat true baseState mrrMode120 0 true).2 ≠ [] ∧
    panelEmits (ct3a_set_panel_feat true baseState mrrMode120 0 true).2 =
      [unlock_cmd_f0]
        ++ (if ct3a_te_cond true (ct3a_eff_feat true baseState mrrMode120) baseState.hw.feat
              baseState.hw.te.rate_hz mrrMode120.te_freq = true then
              ct3a_te_cmds baseState.panel_rev (ct3a_eff_feat true baseState mrrMode120)
                baseState.force_changeable_te mrrMode120.is_vrr mrrMode120.te_freq
            else [])
        ++ ct3a_ee_cmds mrrMode120.is_vrr (ct3a_eff_feat true baseState mrrMode120)
        ++ panelEmits (ct3a_freq_events baseState.panel_rev
              (ct3a_eff_feat true baseState mrrMode120) mrrMode120.is_vrr
              (ct3a_eff_vrefresh true mrrMode120) (ct3a_eff_idle_vrefresh true 0))
        ++ [ltps_update, lock_cmd_f0] :=
  ⟨by decide, ct3a_set_panel_feat_cmd_order true baseState mrrMode120 0 true (by decide)⟩

/-- the frequency-setting block never prints an unsupported manual
frequency warning when the (effective) vrefresh is one of the declared
rates and NS operation excludes 120 Hz. -/
theorem freq_events_no_manual_warn (rev : PanelRev) (feat : FeatSet) (is_vrr : Bool)
    (vrefresh idle : Nat)
    (hv : vrefresh = 1 ∨ vrefresh = 10 ∨ vrefresh = 30 ∨ vrefresh = 60 ∨ vrefresh = 120)
    (hns : feat.op_ns = true → vrefresh ≠ 120) :
    PanelEvent.warn 2 ∉ ct3a_freq_events rev feat is_vrr vrefresh idle ∧
    PanelEvent.warn 3 ∉ ct3a_freq_events rev feat is_vrr vrefresh idle := by
  unfold ct3a_freq_events
  cases hfa : feat.frame_auto <;> cases hop : feat.op_ns <;>
    rcases hv with rfl | rfl | rfl | rfl | rfl <;>
      simp_all <;> split_ifs <;> simp_all

/-- C3: for both build configurations and every mode declared in the
ct3a mode table, under the set_op_hz precondition (FEAT_OP_NS only
active when the operating rate 60 Hz is at least the mode's vrefresh),
ct3a_set_panel_feat never reaches an unsupported-manual-frequency
warning branch (sites 2 and 3): the frequency command byte always comes
from an explicit lookup branch. -/
theorem ct3a_set_panel_feat_no_unsupported_freq :
    ∀ (factory : Bool) (s : Ct3aState) (pmode : GsPanelMode) (idle0 : Nat) (enforce : Bool),
      pmode ∈ ct3a_mode_list factory →
      (s.sw.feat.op_ns = true → pmode.vrefresh ≤ 60) →
      PanelEvent.warn 2 ∉ (ct3a_set_panel_feat factory s pmode idle0 enforce).2 ∧
      PanelEvent.warn 3 ∉ (ct3a_set_panel_feat factory s pmode idle0 enforce).2 := by
  intro factory s pmode idle0 enforce hmem hns
  have hv : ct3a_eff_vrefresh factory pmode = 1 ∨ ct3a_eff_vrefresh factory pmode = 10 ∨
      ct3a_eff_vrefresh factory pmode = 30 ∨ ct3a_eff_vrefresh factory pmode = 60 ∨
      ct3a_eff_vrefresh factory pmode = 120 := by
    cases factory
    · simp [ct3a_eff_vrefresh]
    · simp only [ct3a_mode_list, ct3a_modes_factory] at hmem
      rw [if_pos trivial] at hmem
      fin_cases hmem <;> simp [ct3a_eff_vrefresh]
  have hns' : (ct3a_eff_feat factory s pmode).op_ns = true →
      ct3a_eff_vrefresh factory pmode ≠ 120 := by
    cases factory
    · intro _
      simp [ct3a_eff_vrefresh]
    · intro hop
      have hop' : s.sw.feat.op_ns = true := by
        have hfe : ct3a_eff_feat true s pmode = s.sw.feat := by
          simp [ct3a_eff_feat]
        rw [hfe] at hop
        exact hop
      have h60 := hns hop'
      show ¬pmode.vrefresh = 120
      omega
  obtain ⟨k2, k3⟩ := freq_events_no_manual_warn s.panel_rev (ct3a_eff_feat factory s pmode)
    pmode.is_vrr (ct3a_eff_vrefresh factory pmode) (ct3a_eff_idle_vrefresh factory idle0)
    hv hns'
  constructor <;>
    · simp only [ct3a_set_panel_feat]
      split_ifs with h hteC <;> simp_all

/-- witness for ct3a_set_panel_feat_no_unsupported_freq: the 120 Hz MRR
mode of the factory mode table, from the probe-default state. -/
theorem ct3a_set_panel_feat_no_unsupported_freq_witness :
    mrrMode120 ∈ ct3a_mode_list true ∧
    (baseState.sw.feat.op_ns = true → mrrMode120.vrefresh ≤ 60) ∧
    (PanelEvent.warn 2 ∉ (ct3a_set_panel_feat true baseState mrrMode120 0 true).2 ∧
      PanelEvent.warn 3 ∉ (ct3a_set_panel_feat true baseState mrrMode120 0 true).2) :=
  ⟨by decide, by decide,
    ct3a_set_panel_feat_no_unsupported_freq true baseState mrrMode120 0 true
      (by decide) (by decide)⟩

end Comet
